import Mathlib

/-!
Verification of the event-driven order/payment backend
(`Kartikeya-guthub/Event-Driven-Order-Payment-Backend`).

Shallow embedding of the four database tables (migrations `001_init.sql`,
`002_dead_letter_events.sql`), the ingress write path (`src/routes/orders.js`),
the payment worker (`src/worker/consumer.js`, the `eachMessage` handler), and
the outbox relay (`publishBatch` in the canonical-envelope version of
`src/publisher/outboxPublisher.js`, the one whose wire format the worker's
handler consumes).

Database effects are modelled as pure state transforms over a `DB` record.
Transient infrastructure failures (a `db.query` statement throwing) are
injected through explicit boolean fault parameters; the random outcome of the
mock `processPayment` is a `PaymentStatus` parameter.
-/

namespace OrderPayment

/-- The `state` column of `orders` (text in the schema; these are the four
values the application writes). -/
inductive OrderState
  | CREATED
  | PAYMENT_PENDING
  | PAID
  | FAILED
deriving DecidableEq

/-- A row of the `orders` table (`001_init.sql`): `id` is carried as the key
of the association list in `DB.orders`; `created_at` is never read back and
is omitted; `updated_at` is set by every UPDATE in the worker. -/
structure Order where
  user_id : String
  amount : Int
  state : OrderState
  version : Nat
  updated_at : Nat
deriving DecidableEq

/-- The JSON payloads the application writes into `outbox.payload`:
`{ orderId, userId, amount }` from the ingress and `{ orderId }` from the
worker's follow-up events. -/
inductive Payload
  | orderCreated (orderId userId : String) (amount : Int)
  | orderRef (orderId : String)
deriving DecidableEq

/-- A row of the `outbox` table (`001_init.sql`): BIGSERIAL `id`, unique
`event_id`, `published` defaulting to false, nullable `published_at`. -/
structure OutboxRow where
  id : Nat
  event_id : String
  aggregate_type : String
  aggregate_id : String
  event_type : String
  payload : Payload
  published : Bool
  published_at : Option Nat
  created_at : Nat
deriving DecidableEq

/-- A row of `processed_events` as created by `001_init.sql`:
`event_id UUID PRIMARY KEY`, plus a nullable `worker_id TEXT` column.
Note the primary key is the single column `event_id`. -/
structure ProcessedRow where
  event_id : String
  worker_id : Option String
deriving DecidableEq

/-- A row of `dead_letter_events` (`002_dead_letter_events.sql`). -/
structure DeadLetterRow where
  event_id : String
  event_type : String
  aggregate_id : String
  reason : String
deriving DecidableEq

/-- The database state: the four tables plus the BIGSERIAL sequence backing
`outbox.id`. -/
structure DB where
  orders : List (String × Order)
  outbox : List OutboxRow
  outboxSeq : Nat
  processed_events : List ProcessedRow
  dead_letter_events : List DeadLetterRow
deriving DecidableEq

/-- The only PostgreSQL error the application inspects: unique-constraint
violation, `err.code === "23505"`. -/
inductive PgError
  | uniqueViolation
deriving DecidableEq

/-! ## Ingress: POST /orders (`src/routes/orders.js`) -/

/-- The parsed request body `{ userId, amount }`; `none` models an absent
field (the route performs no validation of its own). -/
structure ReqBody where
  userId : Option String
  amount : Option Int
deriving DecidableEq

/-- The JSON response of the route handler. -/
structure HttpResponse where
  status : Nat
  orderId : Option String
  state : Option String
  error : Option String
deriving DecidableEq

/-- The catch-all error response of the route:
`res.status(500).json({ error: "Failed to create order" })`. -/
def resp500 : HttpResponse :=
  { status := 500, orderId := none, state := none, error := some "Failed to create order" }

/-- `router.post('/')` of `src/routes/orders.js`: BEGIN; insert the order with
state `'CREATED'` (the schema defaults `version` to 0); insert the
`OrderCreated` outbox row; COMMIT and answer 201 — any thrown error (modelled
by `dbFault`, by a missing NOT NULL field, or by a key conflict) triggers
ROLLBACK and the 500 response.  `orderId`/`eventId` are the two `uuidv4()`
values, `now` the insertion timestamp. -/
def postOrders (db : DB) (body : ReqBody) (orderId eventId : String) (now : Nat)
    (dbFault : Bool) : DB × HttpResponse :=
  match body.userId, body.amount with
  | some uid, some amt =>
    if dbFault || db.orders.any (fun r => r.1 == orderId)
        || db.outbox.any (fun r => r.event_id == eventId) then
      (db, resp500)
    else
      ({ db with
          orders := db.orders ++
            [(orderId, { user_id := uid, amount := amt, state := .CREATED,
                         version := 0, updated_at := now })],
          outbox := db.outbox ++
            [{ id := db.outboxSeq, event_id := eventId, aggregate_type := "order",
               aggregate_id := orderId, event_type := "OrderCreated",
               payload := .orderCreated orderId uid amt,
               published := false, published_at := none, created_at := now }],
          outboxSeq := db.outboxSeq + 1 },
       { status := 201, orderId := some orderId, state := some "CREATED", error := none })
  | _, _ => (db, resp500)

/-! ## Payment worker (`src/worker/consumer.js`) -/

/-- `INSERT INTO processed_events(event_id, worker_id) VALUES ($1, $2)` —
fails with 23505 when the single-column primary key `event_id` is already
present (regardless of `worker_id`). -/
def insertProcessedEvent (tbl : List ProcessedRow) (eid wid : String) :
    Except PgError (List ProcessedRow) :=
  if tbl.any (fun r => r.event_id == eid) then .error .uniqueViolation
  else .ok (tbl ++ [{ event_id := eid, worker_id := some wid }])

/-- STEP 1 of the handler:
`UPDATE orders SET state='PAYMENT_PENDING', version=version+1, updated_at=now()
WHERE id=$1 AND state='CREATED' RETURNING *`.
Returns the updated table and, when a row matched, `rows[0].version`
(the post-update version the handler stores for the optimistic guard). -/
def s1Update (orders : List (String × Order)) (oid : String) (now : Nat) :
    List (String × Order) × Option Nat :=
  match orders.find? (fun r => r.1 == oid && r.2.state == OrderState.CREATED) with
  | none => (orders, none)
  | some r =>
    (orders.map (fun x =>
        if x.1 == oid && x.2.state == OrderState.CREATED then
          (x.1, { x.2 with state := .PAYMENT_PENDING, version := x.2.version + 1,
                           updated_at := now })
        else x),
     some (r.2.version + 1))

/-- STEP 3's conditional update:
`UPDATE orders SET state=<PAID|FAILED>, version=version+1, updated_at=now()
WHERE id=$1 AND state='PAYMENT_PENDING' AND version=$2 RETURNING *`.
Returns the updated table and the affected row count. -/
def s3Update (orders : List (String × Order)) (oid : String) (v1 : Nat)
    (success : Bool) (now : Nat) : List (String × Order) × Nat :=
  (orders.map (fun x =>
      if x.1 == oid && x.2.state == OrderState.PAYMENT_PENDING && x.2.version == v1 then
        (x.1, { x.2 with state := if success then .PAID else .FAILED,
                         version := x.2.version + 1, updated_at := now })
      else x),
   (orders.filter (fun x =>
      x.1 == oid && x.2.state == OrderState.PAYMENT_PENDING && x.2.version == v1)).length)

/-- Result of the mock `processPayment` (`src/mock/paymentService.js` draws it
at random, so it is a parameter of the handler). -/
inductive PaymentStatus
  | SUCCESS
  | FAILED
deriving DecidableEq

/-- Injected transient `db.query` failures, one flag per statement of the
handler: the S0 dedup insert (a failure other than 23505), the S1 update, the
S3 conditional update, and the S3 outbox insert. -/
structure Faults where
  s0 : Bool
  s1 : Bool
  s3upd : Bool
  s3ins : Bool
deriving DecidableEq

/-- No injected failure. -/
def noFaults : Faults := ⟨false, false, false, false⟩

/-- How one `eachMessage` invocation ends.  Every branch returns normally
(both `try`/`catch` blocks swallow the error), so the consumer commits the
offset in every case. -/
inductive Outcome
  | skippedType
  | duplicate
  | alreadyProcessedOrInvalid
  | raceLost
  | committed (paid : Bool)
  | errorLogged
deriving DecidableEq

/-- The parsed Kafka message value as the handler reads it:
`event.eventId`, `event.eventType`, `event.aggregateId`,
`event.payload.amount`. -/
structure Envelope where
  eventId : String
  eventType : String
  aggregateId : String
  amount : Int
deriving DecidableEq

/-- The `eachMessage` handler of `src/worker/consumer.js` for one delivery.

* non-`OrderCreated` events are logged and skipped;
* STEP 0 *inserts* into `processed_events` as a standalone autocommit
  statement; a 23505 means duplicate (return), any other error is rethrown
  into the catch block;
* STEP 1 conditionally advances `CREATED → PAYMENT_PENDING` (autocommit);
  0 rows affected means return;
* STEP 2 calls the payment service (outcome `pay`);
* STEP 3 runs one transaction: the guarded terminal update (0 rows → ROLLBACK
  and return), then the `OrderPaid`/`OrderFailed` outbox insert with the fresh
  `uuidv4()` id `freshEventId`; a failure inside rolls the transaction back
  and is rethrown;
* the enclosing `catch` only logs — there is no retry loop and nothing is
  written to `dead_letter_events`. -/
def eachMessage (db : DB) (env : Envelope) (freshEventId : String)
    (pay : PaymentStatus) (f : Faults) (now : Nat) : DB × Outcome :=
  if env.eventType == "OrderCreated" then
    if f.s0 then (db, .errorLogged)
    else
      match insertProcessedEvent db.processed_events env.eventId "payment-worker" with
      | .error _ => (db, .duplicate)
      | .ok pe =>
        let db1 : DB := { db with processed_events := pe }
        if f.s1 then (db1, .errorLogged)
        else
          match s1Update db1.orders env.aggregateId now with
          | (_, none) => (db1, .alreadyProcessedOrInvalid)
          | (orders1, some v1) =>
            let db2 : DB := { db1 with orders := orders1 }
            let success := pay == PaymentStatus.SUCCESS
            if f.s3upd then (db2, .errorLogged)
            else
              let s3 := s3Update db2.orders env.aggregateId v1 success now
              if s3.2 == 0 then (db2, .raceLost)
              else if f.s3ins then (db2, .errorLogged)
              else
                ({ db2 with
                    orders := s3.1,
                    outbox := db2.outbox ++
                      [{ id := db2.outboxSeq, event_id := freshEventId,
                         aggregate_type := "order", aggregate_id := env.aggregateId,
                         event_type := if success then "OrderPaid" else "OrderFailed",
                         payload := .orderRef env.aggregateId,
                         published := false, published_at := none, created_at := now }],
                    outboxSeq := db2.outboxSeq + 1 },
                 .committed success)
  else (db, .skippedType)

/-! ## Outbox relay (`publishBatch`, canonical-envelope publisher) -/

/-- The JSON value `JSON.stringify({...})` the relay sends: exactly the six
fields `eventId`, `eventType`, `aggregateType`, `aggregateId`, `payload`,
`createdAt`. -/
structure WireEnvelope where
  eventId : String
  eventType : String
  aggregateType : String
  aggregateId : String
  payload : Payload
  createdAt : Nat
deriving DecidableEq

/-- One `producer.send` message: topic, key and JSON value. -/
structure BrokerMsg where
  topic : String
  key : String
  value : WireEnvelope
deriving DecidableEq

/-- The message the relay builds for an outbox row: topic `"order-events"`,
`key: row.aggregate_id`, value the canonical envelope of the row. -/
def mkMsg (r : OutboxRow) : BrokerMsg :=
  { topic := "order-events", key := r.aggregate_id,
    value := { eventId := r.event_id, eventType := r.event_type,
               aggregateType := r.aggregate_type, aggregateId := r.aggregate_id,
               payload := r.payload, createdAt := r.created_at } }

/-- Insertion step of `ORDER BY created_at` (ascending). -/
def insertByCreatedAt (r : OutboxRow) : List OutboxRow → List OutboxRow
  | [] => [r]
  | x :: xs => if r.created_at < x.created_at then r :: x :: xs
               else x :: insertByCreatedAt r xs

/-- `ORDER BY created_at` as an insertion sort. -/
def sortByCreatedAt : List OutboxRow → List OutboxRow
  | [] => []
  | x :: xs => insertByCreatedAt x (sortByCreatedAt xs)

/-- The relay's select:
`SELECT … FROM outbox WHERE published = false ORDER BY created_at LIMIT 10`. -/
def selectBatch (db : DB) : List OutboxRow :=
  (sortByCreatedAt (db.outbox.filter (fun r => !r.published))).take 10

/-- `UPDATE outbox SET published = true, published_at = NOW() WHERE id = $1`. -/
def markPublished (outbox : List OutboxRow) (rowId : Nat) (now : Nat) :
    List OutboxRow :=
  outbox.map (fun r =>
    if r.id == rowId then { r with published := true, published_at := some now }
    else r)

/-- The `for (const row of rows)` loop of `publishBatch`: per row, send then
mark; the per-row `try { … } catch (err) { console.error(…) }` swallows any
error and the loop continues with the next row.  `sf`/`mf` inject a send or
mark failure for a given row id.  Returns the updated `outbox` table and the
list of messages actually sent. -/
def runRows (sf mf : Nat → Bool) (now : Nat) :
    List OutboxRow → List OutboxRow → List OutboxRow × List BrokerMsg
  | [], outbox => (outbox, [])
  | r :: rest, outbox =>
    if sf r.id then runRows sf mf now rest outbox
    else if mf r.id then
      ((runRows sf mf now rest outbox).1,
       mkMsg r :: (runRows sf mf now rest outbox).2)
    else
      ((runRows sf mf now rest (markPublished outbox r.id now)).1,
       mkMsg r :: (runRows sf mf now rest (markPublished outbox r.id now)).2)

/-- One `publishBatch()` call of the canonical-envelope publisher. -/
def publishBatch (db : DB) (sf mf : Nat → Bool) (now : Nat) :
    DB × List BrokerMsg :=
  let rows := selectBatch db
  if rows.isEmpty then (db, [])
  else
    (({ db with outbox := (runRows sf mf now rows db.outbox).1 }),
     (runRows sf mf now rows db.outbox).2)

/-- The constant back-off of the relay loop: `await sleep(1000)` after every
`publishBatch()` call, error or not. -/
def tickSleepMs : Nat := 1000

/-! ## State-machine vocabulary -/

/-- The permitted transitions of the order state machine. -/
def permittedTransition : OrderState → OrderState → Bool
  | .CREATED, .PAYMENT_PENDING => true
  | .PAYMENT_PENDING, .PAID => true
  | .PAYMENT_PENDING, .FAILED => true
  | _, _ => false

/-- Terminal states. -/
def terminalState : OrderState → Bool
  | .PAID => true
  | .FAILED => true
  | _ => false

/-- `t` is reachable from `s` along permitted transitions: the reflexive-
transitive closure of `permittedTransition`, tabulated (the graph has depth
two, from `CREATED` every state is reachable, from `PAYMENT_PENDING` only
itself and the two terminal states, terminal states reach only themselves). -/
def reachableState : OrderState → OrderState → Bool
  | .CREATED, _ => true
  | .PAYMENT_PENDING, .PAYMENT_PENDING => true
  | .PAYMENT_PENDING, .PAID => true
  | .PAYMENT_PENDING, .FAILED => true
  | .PAID, .PAID => true
  | .FAILED, .FAILED => true
  | _, _ => false

/-- One row of `orders` is unchanged, or underwent a single permitted
transition bumping `version` by exactly one. -/
def stepOK (o o' : String × Order) : Prop :=
  o' = o ∨ (o'.1 = o.1 ∧ permittedTransition o.2.state o'.2.state = true
            ∧ o'.2.version = o.2.version + 1)

/-! ## Concrete instances used by counterexamples and witnesses -/

/-- The empty database. -/
def emptyDB : DB := ⟨[], [], 0, [], []⟩

/-- Default element for `List.getD` over `orders` rows. -/
def dOrd : String × Order := ("", ⟨"", 0, .CREATED, 0, 0⟩)

/-- A fresh `OrderCreated` envelope for an order id that does not exist. -/
def envGhost : Envelope := ⟨"e1", "OrderCreated", "o1", 100⟩

/-- A database holding one order in `CREATED`. -/
def dbOneCreated : DB := ⟨[("o2", ⟨"u2", 50, .CREATED, 0, 0⟩)], [], 0, [], []⟩

/-- The `OrderCreated` envelope for the order of `dbOneCreated`. -/
def envCreated : Envelope := ⟨"e2", "OrderCreated", "o2", 50⟩

/-- A transient failure of the S1 UPDATE statement. -/
def s1Fault : Faults := ⟨false, true, false, false⟩

/-- Two unpublished outbox rows for the relay counterexample. -/
def rowA : OutboxRow :=
  ⟨1, "ea", "order", "oa", "OrderCreated", .orderCreated "oa" "ua" 5, false, none, 1⟩

/-- Second unpublished outbox row, created after `rowA`. -/
def rowB : OutboxRow :=
  ⟨2, "eb", "order", "ob", "OrderCreated", .orderCreated "ob" "ub" 6, false, none, 2⟩

/-- Relay database containing `rowA` and `rowB`, both unpublished. -/
def dbRelay : DB := ⟨[], [rowA, rowB], 3, [], []⟩

/-- Send failure on `rowA` only. -/
def sfA : Nat → Bool := fun i => i == 1

/-- No mark failures. -/
def mfNone : Nat → Bool := fun _ => false

/-! ## C1 — dedup insert is not co-committed with the terminal transition -/

/-- C1 counterexample: deliver a fresh `OrderCreated` envelope whose
`aggregateId` matches no order.  The handler inserts the
`processed_events` row at STEP 0 and returns at STEP 1 — the row exists
although no terminal state transition was ever committed (no order row,
no outbox row, outcome is the early return), refuting "a processed_events
row exists for an event iff the payment-worker has reached a commit point
for that event" and "inserted only inside the S3 transaction / S0 only
reads". -/
theorem processed_insert_not_coCommitted_cex :
    (eachMessage emptyDB envGhost "f1" .SUCCESS noFaults 1).1.processed_events
      = [⟨"e1", some "payment-worker"⟩]
    ∧ (eachMessage emptyDB envGhost "f1" .SUCCESS noFaults 1).1.orders = []
    ∧ (eachMessage emptyDB envGhost "f1" .SUCCESS noFaults 1).1.outbox = []
    ∧ (eachMessage emptyDB envGhost "f1" .SUCCESS noFaults 1).2
      = Outcome.alreadyProcessedOrInvalid := by
  decide

/-- C1 amended: for every `OrderCreated` envelope, the worker writes the
`processed_events` row as a standalone autocommit statement at STEP 0,
before S1, and no later stage (payment outcome, S3 faults, race loss)
touches `processed_events` — dedup rows record "passed S0", not "reached a
terminal commit". -/
theorem processed_insert_at_S0 :
    ∀ (db : DB) (env : Envelope) (frid : String) (pay : PaymentStatus)
      (f : Faults) (now : Nat),
      env.eventType = "OrderCreated" → f.s0 = false →
      (eachMessage db env frid pay f now).1.processed_events
        = (if db.processed_events.any (fun r => r.event_id == env.eventId) then
             db.processed_events
           else db.processed_events ++ [⟨env.eventId, some "payment-worker"⟩]) := by
  intro db env frid pay f now hty hs0
  by_cases hdup : (db.processed_events.any fun r => r.event_id == env.eventId) = true
  · simp [eachMessage, insertProcessedEvent, hty, hs0, hdup]
  · simp only [eachMessage, insertProcessedEvent, hty, hs0, hdup, beq_self_eq_true,
      if_true, Bool.false_eq_true, if_false]
    split <;> try rfl
    split <;> try rfl
    split <;> try rfl
    split <;> try rfl
    split <;> rfl

/-- C1 amended witness at a concrete input: insertion happens at S0 even
though the handler never reaches S3. -/
theorem processed_insert_at_S0_witness :
    (eachMessage emptyDB envGhost "f1" .SUCCESS noFaults 1).1.processed_events
      = (if emptyDB.processed_events.any (fun r => r.event_id == envGhost.eventId) then
           emptyDB.processed_events
         else emptyDB.processed_events ++ [⟨envGhost.eventId, some "payment-worker"⟩]) :=
  processed_insert_at_S0 emptyDB envGhost "f1" .SUCCESS noFaults 1 rfl rfl

/-! ## C2 — no retry loop, no dead-letter insert -/

/-- C2 (code bug): an exception escaping the handler (here a transient
failure of the S1 UPDATE) is merely logged: the handler returns success
immediately after the single attempt, `dead_letter_events` stays empty,
the order is untouched, and the dedup row already poisoned at S0 remains —
there is no `MAX_RETRIES` loop and no `DeadLetterRecord` insert anywhere in
the worker. -/
theorem errorPath_noRetry_noDLQ :
    (eachMessage dbOneCreated envCreated "f2" .SUCCESS s1Fault 1).2
      = Outcome.errorLogged
    ∧ (eachMessage dbOneCreated envCreated "f2" .SUCCESS s1Fault 1).1.dead_letter_events
      = []
    ∧ (eachMessage dbOneCreated envCreated "f2" .SUCCESS s1Fault 1).1.orders
      = dbOneCreated.orders
    ∧ (eachMessage dbOneCreated envCreated "f2" .SUCCESS s1Fault 1).1.processed_events
      = [⟨"e2", some "payment-worker"⟩] := by
  decide

/-! ## C7 — the relay does not abort the batch on a per-row error -/

/-- C7 counterexample: with two unpublished rows and a send failure injected
on the first, the second row is still published and marked (while the
failing first row keeps `published = false`) — the per-row `catch` swallows
the error and the loop continues, refuting "no later row of that batch is
published". -/
theorem publishBatch_continues_after_error_cex :
    mkMsg rowB ∈ (publishBatch dbRelay sfA mfNone 5).2
    ∧ (publishBatch dbRelay sfA mfNone 5).1.outbox.any
        (fun r => r.id == 2 && r.published) = true
    ∧ (publishBatch dbRelay sfA mfNone 5).1.outbox.any
        (fun r => r.id == 1 && r.published) = false := by
  decide

/-! ## C8 — processed_events primary key is event_id alone -/

/-- C8 (code bug): `001_init.sql` declares `event_id UUID PRIMARY KEY` on
`processed_events`, so after worker kind `payment-worker` records event
`e1`, a different worker kind cannot record `(e1, email-worker)`: the insert
fails with a unique violation, contradicting the documented composite key
`(event_id, worker_kind)`. -/
theorem processed_events_pk_single_column :
    insertProcessedEvent [⟨"e1", some "payment-worker"⟩] "e1" "email-worker"
      = .error .uniqueViolation := rfl

/-! ## C9 — the ingress performs no validation; errors are 500, not 400 -/

/-- C9 counterexample: a request missing `userId` is answered with status
500 (`"Failed to create order"`), not 400 — the route validates nothing and
only has the catch-all 500 path. -/
theorem postOrders_missing_userId_cex :
    (postOrders emptyDB ⟨none, some 100⟩ "o9" "e9" 0 false).2.status = 500
    ∧ ¬ (postOrders emptyDB ⟨none, some 100⟩ "o9" "e9" 0 false).2.status = 400 := by
  decide

/-- C9 amended: a malformed request (missing `userId` or `amount`) fails at
the database inserts; the transaction is rolled back, so no write persists,
and the response is the 500 catch-all — never a 400. -/
theorem postOrders_no_validation :
    ∀ (db : DB) (body : ReqBody) (oid eid : String) (now : Nat) (fault : Bool),
      body.userId = none ∨ body.amount = none →
      postOrders db body oid eid now fault = (db, resp500) := by
  intro db body oid eid now fault h
  cases body with
  | mk u a => rcases h with h | h <;> simp_all [postOrders]

/-- C9 amended witness: the missing-`userId` request leaves the database
unchanged and yields the 500 response. -/
theorem postOrders_no_validation_witness :
    postOrders emptyDB ⟨none, some 100⟩ "o9" "e9" 0 false = (emptyDB, resp500) :=
  postOrders_no_validation emptyDB ⟨none, some 100⟩ "o9" "e9" 0 false (Or.inl rfl)

/-! ## C3 — POST /orders writes both rows atomically or neither -/

/-- C3: with a well-formed body and fresh ids, `postOrders` appends, in one
transaction, exactly one order (`CREATED`, schema-default `version = 0`) and
one outbox row (`fresh event_id`, `aggregate_type "order"`,
`aggregate_id = orderId`, `event_type "OrderCreated"`, payload
`{orderId, userId, amount}`) and answers `201 {orderId, state: "CREATED"}`;
and every run that does not answer 201 leaves the database exactly as it was
and answers `500 {error: "Failed to create order"}`. -/
theorem postOrders_atomic_contract :
    ∀ (db : DB) (uid : String) (amt : Int) (oid eid : String) (now : Nat),
      (db.orders.any (fun r => r.1 == oid) = false →
       db.outbox.any (fun r => r.event_id == eid) = false →
       postOrders db ⟨some uid, some amt⟩ oid eid now false =
         ({ db with
             orders := db.orders ++
               [(oid, { user_id := uid, amount := amt, state := .CREATED,
                        version := 0, updated_at := now })],
             outbox := db.outbox ++
               [{ id := db.outboxSeq, event_id := eid, aggregate_type := "order",
                  aggregate_id := oid, event_type := "OrderCreated",
                  payload := .orderCreated oid uid amt,
                  published := false, published_at := none, created_at := now }],
             outboxSeq := db.outboxSeq + 1 },
          { status := 201, orderId := some oid, state := some "CREATED", error := none }))
      ∧ (∀ (body : ReqBody) (fault : Bool),
          (postOrders db body oid eid now fault).2.status ≠ 201 →
          postOrders db body oid eid now fault = (db, resp500)) := by
  intro db uid amt oid eid now
  constructor
  · intro h1 h2
    simp [postOrders, h1, h2]
  · intro body fault hne
    cases body with
    | mk u a =>
      cases u with
      | none => rfl
      | some uid2 =>
        cases a with
        | none => rfl
        | some amt2 =>
          by_cases hc : (fault || db.orders.any (fun r => r.1 == oid)
              || db.outbox.any (fun r => r.event_id == eid)) = true
          · simp [postOrders, hc]
          · exact absurd (by simp [postOrders, hc]) hne

/-- C3 witness: concrete success and rollback runs on the empty database. -/
theorem postOrders_atomic_contract_witness :
    postOrders emptyDB ⟨some "u1", some 10⟩ "o1" "e1" 0 false =
      ({ emptyDB with
          orders := emptyDB.orders ++
            [("o1", { user_id := "u1", amount := 10, state := .CREATED,
                      version := 0, updated_at := 0 })],
          outbox := emptyDB.outbox ++
            [{ id := emptyDB.outboxSeq, event_id := "e1", aggregate_type := "order",
               aggregate_id := "o1", event_type := "OrderCreated",
               payload := .orderCreated "o1" "u1" 10,
               published := false, published_at := none, created_at := 0 }],
          outboxSeq := emptyDB.outboxSeq + 1 },
       { status := 201, orderId := some "o1", state := some "CREATED", error := none })
    ∧ postOrders emptyDB ⟨some "u1", some 10⟩ "o1" "e1" 0 true = (emptyDB, resp500) :=
  ⟨(postOrders_atomic_contract emptyDB "u1" 10 "o1" "e1" 0).1 rfl rfl,
   (postOrders_atomic_contract emptyDB "u1" 10 "o1" "e1" 0).2 ⟨some "u1", some 10⟩ true
     (by decide)⟩

/-! ## C5 — replaying a processed envelope leaves orders and outbox unchanged -/

/-- C5: if an envelope's `event_id` is already recorded in `processed_events`
for the payment worker, redelivering it leaves the `orders` table and the
`outbox` table exactly unchanged, whatever the payment outcome or injected
faults: the STEP 0 insert hits the unique key and the handler returns before
any other statement. -/
theorem worker_dedup_replay_frame :
    ∀ (db : DB) (env : Envelope) (frid : String) (pay : PaymentStatus)
      (f : Faults) (now : Nat),
      (⟨env.eventId, some "payment-worker"⟩ : ProcessedRow) ∈ db.processed_events →
      (eachMessage db env frid pay f now).1.orders = db.orders
      ∧ (eachMessage db env frid pay f now).1.outbox = db.outbox := by
  intro db env frid pay f now hmem
  have hdup : (db.processed_events.any fun r => r.event_id == env.eventId) = true := by
    simp only [List.any_eq_true]
    exact ⟨_, hmem, by simp⟩
  by_cases hty : (env.eventType == "OrderCreated") = true
  · by_cases hs0 : f.s0 = true
    · simp [eachMessage, hty, hs0]
    · simp [eachMessage, insertProcessedEvent, hty, hs0, hdup]
  · simp [eachMessage, hty]

/-- C5 witness: a concrete replay of an already-processed envelope. -/
theorem worker_dedup_replay_frame_witness :
    (eachMessage (DB.mk [("o2", ⟨"u2", 50, .PAID, 3, 9⟩)] [] 0
        [⟨"e2", some "payment-worker"⟩] []) envCreated "f9" .SUCCESS noFaults 4).1.orders
      = (DB.mk [("o2", ⟨"u2", 50, .PAID, 3, 9⟩)] [] 0
        [⟨"e2", some "payment-worker"⟩] []).orders
    ∧ (eachMessage (DB.mk [("o2", ⟨"u2", 50, .PAID, 3, 9⟩)] [] 0
        [⟨"e2", some "payment-worker"⟩] []) envCreated "f9" .SUCCESS noFaults 4).1.outbox
      = (DB.mk [("o2", ⟨"u2", 50, .PAID, 3, 9⟩)] [] 0
        [⟨"e2", some "payment-worker"⟩] []).outbox :=
  worker_dedup_replay_frame
    (DB.mk [("o2", ⟨"u2", 50, .PAID, 3, 9⟩)] [] 0 [⟨"e2", some "payment-worker"⟩] [])
    envCreated "f9" .SUCCESS noFaults 4 (by decide)

/-! ## C10 — dedup depends only on event_id presence, not on order state -/

/-- C10: for any `OrderCreated` envelope whose `event_id` appears anywhere in
`processed_events` (whatever its `worker_id`, and whatever state the order is
in — including `CREATED` after a partially-failed earlier attempt), the
handler returns the duplicate outcome with the database entirely untouched:
no read of the order's state occurs before the dedup decision. -/
theorem worker_dedup_presence_only :
    ∀ (db : DB) (env : Envelope) (frid : String) (pay : PaymentStatus)
      (f : Faults) (now : Nat),
      env.eventType = "OrderCreated" → f.s0 = false →
      (db.processed_events.any fun r => r.event_id == env.eventId) = true →
      eachMessage db env frid pay f now = (db, Outcome.duplicate) := by
  intro db env frid pay f now hty hs0 hdup
  simp [eachMessage, insertProcessedEvent, hty, hs0, hdup]

/-- C10 witness: the order is still in `CREATED` and its event is recorded
(with a NULL `worker_id`); redelivery changes nothing and reports a
duplicate, so the order is never advanced. -/
theorem worker_dedup_presence_only_witness :
    eachMessage (DB.mk [("o1", ⟨"u1", 5, .CREATED, 0, 0⟩)] [] 0 [⟨"e9", none⟩] [])
        ⟨"e9", "OrderCreated", "o1", 5⟩ "fA" .SUCCESS noFaults 2
      = (DB.mk [("o1", ⟨"u1", 5, .CREATED, 0, 0⟩)] [] 0 [⟨"e9", none⟩] [],
         Outcome.duplicate) :=
  worker_dedup_presence_only
    (DB.mk [("o1", ⟨"u1", 5, .CREATED, 0, 0⟩)] [] 0 [⟨"e9", none⟩] [])
    ⟨"e9", "OrderCreated", "o1", 5⟩ "fA" .SUCCESS noFaults 2 rfl rfl (by decide)

/-! ## Relay lemmas -/

/-- Every message emitted by the row loop comes from a row of the batch on
which no send failure was injected, and is exactly `mkMsg` of that row. -/
theorem runRows_msgs_from_rows (sf mf : Nat → Bool) (now : Nat) :
    ∀ (rows outbox : List OutboxRow) (m : BrokerMsg),
      m ∈ (runRows sf mf now rows outbox).2 →
      ∃ r, r ∈ rows ∧ sf r.id = false ∧ m = mkMsg r := by
  intro rows
  induction rows with
  | nil => intro outbox m hm; simp [runRows] at hm
  | cons r rest ih =>
    intro outbox m hm
    by_cases hsf : sf r.id = true
    · simp only [runRows, hsf, if_true] at hm
      obtain ⟨r2, hr2, hsf2, hm2⟩ := ih outbox m hm
      exact ⟨r2, List.mem_cons_of_mem _ hr2, hsf2, hm2⟩
    · have hsf' : sf r.id = false := by revert hsf; cases sf r.id <;> simp
      by_cases hmf : mf r.id = true
      · simp only [runRows, hsf', Bool.false_eq_true, if_false, hmf, if_true,
          List.mem_cons] at hm
        rcases hm with hm | hm
        · exact ⟨r, List.mem_cons_self _ _, hsf', hm⟩
        · obtain ⟨r2, hr2, hsf2, hm2⟩ := ih outbox m hm
          exact ⟨r2, List.mem_cons_of_mem _ hr2, hsf2, hm2⟩
      · simp only [runRows, hsf', Bool.false_eq_true, if_false, hmf,
          List.mem_cons] at hm
        rcases hm with hm | hm
        · exact ⟨r, List.mem_cons_self _ _, hsf', hm⟩
        · obtain ⟨r2, hr2, hsf2, hm2⟩ := ih (markPublished outbox r.id now) m hm
          exact ⟨r2, List.mem_cons_of_mem _ hr2, hsf2, hm2⟩

/-- The messages emitted by the row loop are exactly `mkMsg` of the rows
without an injected send failure, in batch order — independent of the
`outbox` accumulator and of mark failures. -/
theorem runRows_msgs_eq (sf mf : Nat → Bool) (now : Nat) :
    ∀ (rows outbox : List OutboxRow),
      (runRows sf mf now rows outbox).2
        = (rows.filter (fun r => !(sf r.id))).map mkMsg := by
  intro rows
  induction rows with
  | nil => intro outbox; simp [runRows]
  | cons r rest ih =>
    intro outbox
    by_cases hsf : sf r.id = true
    · simp [runRows, hsf, List.filter_cons, ih]
    · have hsf' : sf r.id = false := by revert hsf; cases sf r.id <;> simp
      by_cases hmf : mf r.id = true
      · simp [runRows, hsf', hmf, List.filter_cons, ih]
      · simp [runRows, hsf', hmf, List.filter_cons, ih]

/-! ## C4 — published messages carry the canonical envelope -/

/-- C4: every message the relay emits in a tick is built from a row of the
selected batch of unpublished rows: topic `order-events`, key the row's
`aggregate_id`, and value the canonical envelope carrying exactly the six
fields `eventId`, `eventType`, `aggregateType`, `aggregateId`, `payload`,
`createdAt` (the fields of `WireEnvelope`) copied from the row. -/
theorem publishBatch_messages_canonical :
    ∀ (db : DB) (sf mf : Nat → Bool) (now : Nat) (m : BrokerMsg),
      m ∈ (publishBatch db sf mf now).2 →
      ∃ r, r ∈ selectBatch db ∧ sf r.id = false
        ∧ m.topic = "order-events" ∧ m.key = r.aggregate_id
        ∧ m.value = WireEnvelope.mk r.event_id r.event_type r.aggregate_type
            r.aggregate_id r.payload r.created_at := by
  intro db sf mf now m hm
  simp only [publishBatch] at hm
  by_cases hempty : (selectBatch db).isEmpty = true
  · simp [hempty] at hm
  · simp only [hempty, Bool.false_eq_true, if_false] at hm
    obtain ⟨r, hr, hsf, hmk⟩ := runRows_msgs_from_rows sf mf now (selectBatch db) db.outbox m hm
    exact ⟨r, hr, hsf, by rw [hmk]; exact rfl, by rw [hmk]; exact rfl, by rw [hmk]; exact rfl⟩

/-- C4 witness: the concrete batch `[rowA, rowB]` with no failures; the
message for `rowA` is canonical. -/
theorem publishBatch_messages_canonical_witness :
    ∃ r, r ∈ selectBatch dbRelay ∧ mfNone r.id = false
      ∧ (mkMsg rowA).topic = "order-events" ∧ (mkMsg rowA).key = r.aggregate_id
      ∧ (mkMsg rowA).value = WireEnvelope.mk r.event_id r.event_type r.aggregate_type
          r.aggregate_id r.payload r.created_at :=
  publishBatch_messages_canonical dbRelay mfNone mfNone 5 (mkMsg rowA) (by decide)

/-! ## C7 amended — per-row errors are contained, the loop continues -/

/-- The outbox table after the row loop, in closed form: exactly the rows of
the table whose id belongs to a batch row on which neither the send nor the
mark failed are set to `published = true, published_at = now`; every other
row — in particular the entry of a batch row with an injected send or mark
failure — is left exactly unchanged. -/
theorem runRows_outbox_eq (sf mf : Nat → Bool) (now : Nat) :
    ∀ (rows outbox : List OutboxRow),
      (runRows sf mf now rows outbox).1
        = outbox.map (fun x =>
            if rows.any (fun r => (!(sf r.id) && !(mf r.id)) && r.id == x.id) then
              { x with published := true, published_at := some now }
            else x) := by
  intro rows
  induction rows with
  | nil =>
    intro outbox
    simp [runRows]
  | cons r rest ih =>
    intro outbox
    by_cases hsf : sf r.id = true
    · simp only [runRows, hsf, if_true]
      rw [ih outbox]
      apply List.map_congr_left
      intro x _
      simp [hsf]
    · have hsf2 : sf r.id = false := by revert hsf; cases sf r.id <;> simp
      by_cases hmf : mf r.id = true
      · simp only [runRows, hsf2, Bool.false_eq_true, if_false, hmf, if_true]
        rw [ih outbox]
        apply List.map_congr_left
        intro x _
        simp [hsf2, hmf]
      · have hmf2 : mf r.id = false := by revert hmf; cases mf r.id <;> simp
        simp only [runRows, hsf2, Bool.false_eq_true, if_false, hmf2]
        rw [ih (markPublished outbox r.id now)]
        simp only [markPublished, List.map_map]
        apply List.map_congr_left
        intro x _
        simp only [Function.comp_apply, List.any_cons, hsf2, hmf2,
          Bool.not_false, Bool.true_and]
        by_cases hb : (x.id == r.id) = true
        · have hbe : x.id = r.id := by simpa using hb
          have hbr : (r.id == x.id) = true := by simp [hbe]
          simp only [hb, if_true, hbr, Bool.true_or, if_true]
          split <;> rfl
        · have hbe : ¬ x.id = r.id := by simpa using hb
          have hbr : (r.id == x.id) = false := by
            simp only [beq_eq_false_iff_ne]
            exact fun he => hbe he.symm
          simp only [hb, Bool.false_eq_true, if_false, hbr, Bool.false_or]

/-- C7 amended: a failure on one row does not abort the batch: the messages
of one tick are exactly those for the selected rows without an injected send
failure, in batch order (rows after a failed one are still published); the
outbox table after the tick marks `published = true, published_at = now`
exactly on the rows of the batch whose send and mark both succeeded, while
the entry of a row with a send failure (never sent) or a mark failure (sent,
so it will be resent next tick) stays exactly unchanged — still
`published = false`; and the relay sleeps the constant 1000 ms interval
after every tick regardless of errors. -/
theorem publishBatch_perRow_errors :
    ∀ (db : DB) (sf mf : Nat → Bool) (now : Nat),
      (publishBatch db sf mf now).2
        = ((selectBatch db).filter (fun r => !(sf r.id))).map mkMsg
      ∧ (publishBatch db sf mf now).1.outbox
        = db.outbox.map (fun x =>
            if (selectBatch db).any
                (fun r => (!(sf r.id) && !(mf r.id)) && r.id == x.id) then
              { x with published := true, published_at := some now }
            else x)
      ∧ tickSleepMs = 1000 := by
  intro db sf mf now
  refine ⟨?_, ?_, rfl⟩
  · simp only [publishBatch]
    by_cases hempty : (selectBatch db).isEmpty = true
    · rw [List.isEmpty_iff] at hempty
      simp [hempty]
    · simp only [hempty, Bool.false_eq_true, if_false]
      exact runRows_msgs_eq sf mf now (selectBatch db) db.outbox
  · simp only [publishBatch]
    by_cases hempty : (selectBatch db).isEmpty = true
    · rw [List.isEmpty_iff] at hempty
      simp [hempty]
    · simp only [hempty, Bool.false_eq_true, if_false]
      exact runRows_outbox_eq sf mf now (selectBatch db) db.outbox

/-! ## State-machine lemmas (C6) -/

/-- `getD` through a guarded pointwise map. -/
theorem getD_map_ite {α : Type} (p : α → Bool) (g : α → α) :
    ∀ (l : List α) (i : Nat) (d : α), i < l.length →
      (l.map (fun x => if p x then g x else x)).getD i d
        = (if p (l.getD i d) then g (l.getD i d) else l.getD i d) := by
  intro l
  induction l with
  | nil => intro i d h; simp at h
  | cons a t ih =>
    intro i d h
    cases i with
    | zero => simp
    | succ n =>
      simp only [List.map_cons, List.getD_cons_succ]
      exact ih n d (by simpa using h)

/-- S1 preserves the number of order rows. -/
theorem s1Update_length (orders : List (String × Order)) (oid : String) (now : Nat) :
    (s1Update orders oid now).1.length = orders.length := by
  simp only [s1Update]
  split <;> simp

/-- S3 preserves the number of order rows. -/
theorem s3Update_length (orders : List (String × Order)) (oid : String) (v1 : Nat)
    (success : Bool) (now : Nat) :
    (s3Update orders oid v1 success now).1.length = orders.length := by
  simp [s3Update]

/-- Each row is either untouched by S1 or undergoes the single permitted
transition `CREATED → PAYMENT_PENDING` with `version` bumped by one. -/
theorem s1Update_stepOK :
    ∀ (orders : List (String × Order)) (oid : String) (now i : Nat)
      (d : String × Order), i < orders.length →
      stepOK (orders.getD i d) ((s1Update orders oid now).1.getD i d) := by
  intro orders oid now i d h
  simp only [s1Update]
  split
  · exact Or.inl rfl
  · dsimp only
    rw [getD_map_ite (fun x => x.1 == oid && x.2.state == OrderState.CREATED)
      (fun x => (x.1, { x.2 with state := .PAYMENT_PENDING,
                                 version := x.2.version + 1, updated_at := now }))
      orders i d h]
    by_cases hp : ((orders.getD i d).1 == oid
        && (orders.getD i d).2.state == OrderState.CREATED) = true
    · rw [if_pos hp]
      simp only [Bool.and_eq_true, beq_iff_eq] at hp
      right
      exact ⟨rfl, by rw [hp.2]; rfl, rfl⟩
    · rw [if_neg hp]
      exact Or.inl rfl

/-- Each row is either untouched by S3 or undergoes the single permitted
transition `PAYMENT_PENDING → PAID/FAILED` with `version` bumped by one. -/
theorem s3Update_stepOK :
    ∀ (orders : List (String × Order)) (oid : String) (v1 : Nat) (success : Bool)
      (now i : Nat) (d : String × Order), i < orders.length →
      stepOK (orders.getD i d) ((s3Update orders oid v1 success now).1.getD i d) := by
  intro orders oid v1 success now i d h
  simp only [s3Update]
  rw [getD_map_ite
    (fun x => x.1 == oid && x.2.state == OrderState.PAYMENT_PENDING && x.2.version == v1)
    (fun x => (x.1, { x.2 with state := if success then .PAID else .FAILED,
                               version := x.2.version + 1, updated_at := now }))
    orders i d h]
  by_cases hp : ((orders.getD i d).1 == oid
      && (orders.getD i d).2.state == OrderState.PAYMENT_PENDING
      && (orders.getD i d).2.version == v1) = true
  · rw [if_pos hp]
    simp only [Bool.and_eq_true, beq_iff_eq] at hp
    right
    refine ⟨rfl, ?_, rfl⟩
    rw [hp.1.2]
    cases success <;> rfl
  · rw [if_neg hp]
    exact Or.inl rfl

/-- Chaining at most two permitted steps: the key is stable, the final state
is reachable from the initial one, and a terminal row is frozen. -/
theorem stepOK_reach {o m o' : String × Order}
    (h1 : stepOK o m) (h2 : stepOK m o') :
    o'.1 = o.1 ∧ reachableState o.2.state o'.2.state = true
    ∧ (terminalState o.2.state = true → o' = o) := by
  have hrefl : ∀ s : OrderState, reachableState s s = true := by
    intro s; cases s <;> rfl
  have hstep : ∀ s t : OrderState, permittedTransition s t = true →
      reachableState s t = true := by
    intro s t hp
    cases s <;> cases t <;> first | rfl | exact absurd hp (by decide)
  have hterm : ∀ s t : OrderState, permittedTransition s t = true →
      terminalState s = true → False := by
    intro s t hp ht
    cases s <;> cases t <;> simp_all [permittedTransition, terminalState]
  have htrans : ∀ s u t : OrderState, permittedTransition s u = true →
      permittedTransition u t = true → reachableState s t = true := by
    intro s u t hp1 hp2
    cases s <;> cases u <;> cases t <;>
      first | rfl | exact absurd hp1 (by decide) | exact absurd hp2 (by decide)
  rcases h1 with h1e | ⟨hk1, hp1, hv1⟩
  · rcases h2 with h2e | ⟨hk2, hp2, hv2⟩
    · exact ⟨by rw [h2e, h1e], by rw [h2e, h1e]; exact hrefl _,
             fun _ => by rw [h2e, h1e]⟩
    · rw [h1e] at hk2 hp2
      exact ⟨hk2, hstep _ _ hp2, fun ht => (hterm _ _ hp2 ht).elim⟩
  · rcases h2 with h2e | ⟨hk2, hp2, hv2⟩
    · exact ⟨by rw [h2e]; exact hk1, by rw [h2e]; exact hstep _ _ hp1,
             fun ht => (hterm _ _ hp1 ht).elim⟩
    · exact ⟨hk2.trans hk1, htrans _ _ _ hp1 hp2,
             fun ht => (hterm _ _ hp1 ht).elim⟩

/-- The `orders` table after one `eachMessage` call is the original table,
its S1 update, or the S3 update of its S1 update — those three statements
are the only writers. -/
theorem eachMessage_orders_cases :
    ∀ (db : DB) (env : Envelope) (frid : String) (pay : PaymentStatus)
      (f : Faults) (now : Nat),
      (eachMessage db env frid pay f now).1.orders = db.orders
      ∨ (eachMessage db env frid pay f now).1.orders
          = (s1Update db.orders env.aggregateId now).1
      ∨ ∃ v1 : Nat,
          (eachMessage db env frid pay f now).1.orders
            = (s3Update (s1Update db.orders env.aggregateId now).1 env.aggregateId v1
                (pay == PaymentStatus.SUCCESS) now).1 := by
  intro db env frid pay f now
  simp only [eachMessage]
  split
  · split
    · exact Or.inl rfl
    · split
      · exact Or.inl rfl
      · split
        · exact Or.inl rfl
        · split
          · exact Or.inl rfl
          · next orders1 v1 heq =>
            have h1 : orders1 = (s1Update db.orders env.aggregateId now).1 := by
              rw [heq]
            split
            · exact Or.inr (Or.inl h1)
            · split
              · exact Or.inr (Or.inl h1)
              · split
                · exact Or.inr (Or.inl h1)
                · exact Or.inr (Or.inr ⟨v1, by rw [h1]⟩)
  · exact Or.inl rfl

/-- Pointwise effect of one `eachMessage` call on every pre-existing order
row: key stable, state moves only along permitted transitions, terminal rows
frozen. -/
theorem eachMessage_pointwise :
    ∀ (db : DB) (env : Envelope) (frid : String) (pay : PaymentStatus)
      (f : Faults) (now i : Nat) (d : String × Order), i < db.orders.length →
      ((eachMessage db env frid pay f now).1.orders.getD i d).1
          = (db.orders.getD i d).1
      ∧ reachableState (db.orders.getD i d).2.state
          ((eachMessage db env frid pay f now).1.orders.getD i d).2.state = true
      ∧ (terminalState (db.orders.getD i d).2.state = true →
          (eachMessage db env frid pay f now).1.orders.getD i d
            = db.orders.getD i d) := by
  intro db env frid pay f now i d h
  rcases eachMessage_orders_cases db env frid pay f now with hc | hc | ⟨v1, hc⟩
  · rw [hc]
    exact stepOK_reach (Or.inl rfl) (Or.inl rfl)
  · rw [hc]
    exact stepOK_reach (s1Update_stepOK db.orders env.aggregateId now i d h) (Or.inl rfl)
  · rw [hc]
    exact stepOK_reach (s1Update_stepOK db.orders env.aggregateId now i d h)
      (s3Update_stepOK (s1Update db.orders env.aggregateId now).1 env.aggregateId v1
        (pay == PaymentStatus.SUCCESS) now i d
        (by rw [s1Update_length]; exact h))

/-- `postOrders` either leaves `orders` unchanged or appends exactly one new
order in state `CREATED` with `version = 0`. -/
theorem postOrders_orders_cases :
    ∀ (db : DB) (body : ReqBody) (oid eid : String) (now : Nat) (fault : Bool),
      (postOrders db body oid eid now fault).1.orders = db.orders
      ∨ ∃ uid amt, body = ⟨some uid, some amt⟩
          ∧ (postOrders db body oid eid now fault).1.orders
            = db.orders ++ [(oid, { user_id := uid, amount := amt,
                                    state := .CREATED, version := 0,
                                    updated_at := now })] := by
  intro db body oid eid now fault
  cases body with
  | mk u a =>
    cases u with
    | none => exact Or.inl rfl
    | some uid =>
      cases a with
      | none => exact Or.inl rfl
      | some amt =>
        simp only [postOrders]
        split
        · exact Or.inl rfl
        · exact Or.inr ⟨uid, amt, rfl, rfl⟩

/-! ## C6 — the order state machine -/

/-- C6: (1) the worker's S1 update moves each row along
`CREATED → PAYMENT_PENDING` or not at all; (2) its S3 update moves each row
along `PAYMENT_PENDING → PAID/FAILED` or not at all, each accepted update
bumping `version` by exactly one; (3) the ingress only ever appends orders
in state `CREATED`; (4) a whole handler call keeps every row's key, moves
its state only along the permitted-transition graph, and never updates a
row already in a terminal state. -/
theorem orders_state_machine :
    (∀ (orders : List (String × Order)) (oid : String) (now i : Nat)
       (d : String × Order), i < orders.length →
       stepOK (orders.getD i d) ((s1Update orders oid now).1.getD i d))
    ∧ (∀ (orders : List (String × Order)) (oid : String) (v1 : Nat) (success : Bool)
        (now i : Nat) (d : String × Order), i < orders.length →
        stepOK (orders.getD i d) ((s3Update orders oid v1 success now).1.getD i d))
    ∧ (∀ (db : DB) (body : ReqBody) (oid eid : String) (now : Nat) (fault : Bool),
        (postOrders db body oid eid now fault).1.orders = db.orders
        ∨ ∃ uid amt, body = ⟨some uid, some amt⟩
            ∧ (postOrders db body oid eid now fault).1.orders
              = db.orders ++ [(oid, { user_id := uid, amount := amt,
                                      state := .CREATED, version := 0,
                                      updated_at := now })])
    ∧ (∀ (db : DB) (env : Envelope) (frid : String) (pay : PaymentStatus)
        (f : Faults) (now i : Nat) (d : String × Order), i < db.orders.length →
        ((eachMessage db env frid pay f now).1.orders.getD i d).1
            = (db.orders.getD i d).1
        ∧ reachableState (db.orders.getD i d).2.state
            ((eachMessage db env frid pay f now).1.orders.getD i d).2.state = true
        ∧ (terminalState (db.orders.getD i d).2.state = true →
            (eachMessage db env frid pay f now).1.orders.getD i d
              = db.orders.getD i d)) :=
  ⟨s1Update_stepOK, s3Update_stepOK, postOrders_orders_cases, eachMessage_pointwise⟩

/-- C6 witness: the four parts at concrete inputs — one `CREATED` order
through S1, one `PAYMENT_PENDING` order through S3, one ingress call, and
one full handler call. -/
theorem orders_state_machine_witness :
    stepOK ([("o1", ⟨"u1", 5, .CREATED, 0, 0⟩)].getD 0 dOrd)
      ((s1Update [("o1", ⟨"u1", 5, .CREATED, 0, 0⟩)] "o1" 3).1.getD 0 dOrd)
    ∧ stepOK ([("o1", ⟨"u1", 5, .PAYMENT_PENDING, 1, 2⟩)].getD 0 dOrd)
      ((s3Update [("o1", ⟨"u1", 5, .PAYMENT_PENDING, 1, 2⟩)] "o1" 1 true 3).1.getD 0 dOrd)
    ∧ ((postOrders emptyDB ⟨some "uW", some 3⟩ "oW" "eW" 0 false).1.orders
          = emptyDB.orders
        ∨ ∃ uid amt, (⟨some "uW", some 3⟩ : ReqBody) = ⟨some uid, some amt⟩
            ∧ (postOrders emptyDB ⟨some "uW", some 3⟩ "oW" "eW" 0 false).1.orders
              = emptyDB.orders ++ [("oW", { user_id := uid, amount := amt,
                                            state := .CREATED, version := 0,
                                            updated_at := 0 })])
    ∧ (((eachMessage dbOneCreated envCreated "fW" .SUCCESS noFaults 2).1.orders.getD
          0 dOrd).1 = (dbOneCreated.orders.getD 0 dOrd).1
        ∧ reachableState (dbOneCreated.orders.getD 0 dOrd).2.state
            ((eachMessage dbOneCreated envCreated "fW" .SUCCESS noFaults 2).1.orders.getD
              0 dOrd).2.state = true
        ∧ (terminalState (dbOneCreated.orders.getD 0 dOrd).2.state = true →
            (eachMessage dbOneCreated envCreated "fW" .SUCCESS noFaults 2).1.orders.getD
              0 dOrd = dbOneCreated.orders.getD 0 dOrd)) :=
  ⟨orders_state_machine.1 [("o1", ⟨"u1", 5, .CREATED, 0, 0⟩)] "o1" 3 0 dOrd (by decide),
   orders_state_machine.2.1 [("o1", ⟨"u1", 5, .PAYMENT_PENDING, 1, 2⟩)] "o1" 1 true 3 0
     dOrd (by decide),
   orders_state_machine.2.2.1 emptyDB ⟨some "uW", some 3⟩ "oW" "eW" 0 false,
   orders_state_machine.2.2.2 dbOneCreated envCreated "fW" .SUCCESS noFaults 2 0 dOrd
     (by decide)⟩

end OrderPayment
